import Mathlib

/-!
Verification of the poly-survivor trading bot (src/bot.py, src/trading.py,
src/research.py) against its natural-language specification.

Monetary quantities are modelled as rationals (`ℚ`); the Python source uses
floats, but every claim under study concerns comparisons and arithmetic at
inputs where float and exact arithmetic agree.  Calendar dates are opaque
strings (the code keys its ledger by `date.today().isoformat()`).
-/

namespace PolySurvivor

/-! ## Configuration constants (src/config.py) -/

def MAX_SINGLE_BET : ℚ := 15
def MAX_POSITION_PCT : ℚ := 25 / 100
def MAX_DAILY_BETS : ℚ := 30
def MIN_RESERVE_PCT : ℚ := 20 / 100
def MAX_RESEARCH_PER_CYCLE : ℕ := 5

/-! ## Risk manager data (src/bot.py, class RiskManager) -/

/-- `balance` dict as consumed by `check_bet`: the code reads the keys
`available_usdc` and `total_usdc` with default 0 via `.get`. -/
structure Balance where
  available_usdc : ℚ
  total_usdc : ℚ
deriving Repr, DecidableEq

/-- One entry of the `positions` list: the code reads `market_id` and
`current_value` (default 0). -/
structure Position where
  market_id : String
  current_value : ℚ
deriving Repr, DecidableEq

/-- `self.daily_bets`: a Python dict from ISO date string to amount. -/
abbrev Ledger := List (String × ℚ)

/-- `d.get(k, 0)` on the ledger dict. -/
def Ledger.get : Ledger → String → ℚ
  | [], _ => 0
  | (k0, v0) :: rest, k => if k0 = k then v0 else Ledger.get rest k

/-- `d[k] = v` on the ledger dict: replace the binding if present, else add it. -/
def Ledger.set (l : Ledger) (k : String) (v : ℚ) : Ledger :=
  match l with
  | [] => [(k, v)]
  | (k0, v0) :: rest =>
      if k0 = k then (k, v) :: rest else (k0, v0) :: Ledger.set rest k v

/-- Rejection message of rule 1 (`researched` is false). -/
def msgResearch : String := "Must research market before betting"
/-- Rejection message of rule 2 (single-bet cap). -/
def msgSingle : String := "Single bet cannot exceed the single-bet limit"
/-- Rejection message of rule 3 (insufficient available balance).  The code
interpolates the available amount into the text; the numeric formatting is
elided here. -/
def msgBalance : String := "Insufficient balance"
/-- Rejection message of rule 4 (reserve requirement). -/
def msgReserve : String := "Must maintain 20 percent reserve"
/-- Rejection message of rule 5 (position-size cap). -/
def msgPosition : String := "Position would exceed 25 percent of balance"
/-- Rejection message of rule 6 (daily cap). -/
def msgDaily : String := "Daily betting limit reached"

/-- `sum(p.get("current_value", 0) for p in positions if p.get("market_id") == market_id)`. -/
def positionSum (positions : List Position) (market_id : String) : ℚ :=
  ((positions.filter (fun p => p.market_id = market_id)).map Position.current_value).sum

/-- `RiskManager.check_bet` (src/bot.py).  `today` stands for
`date.today().isoformat()` and `daily_bets` for `self.daily_bets`. -/
def check_bet (amount : ℚ) (market_id : String) (balance : Balance)
    (positions : List Position) (researched : Bool)
    (daily_bets : Ledger) (today : String) : Bool × String :=
  if researched = false then (false, msgResearch)
  else if amount > MAX_SINGLE_BET then (false, msgSingle)
  else
    let available := balance.available_usdc
    if amount > available then (false, msgBalance)
    else
      let total := balance.total_usdc
      if available - amount < total * MIN_RESERVE_PCT then (false, msgReserve)
      else
        let existing_position := positionSum positions market_id
        if existing_position + amount > total * MAX_POSITION_PCT then (false, msgPosition)
        else
          let daily_total := Ledger.get daily_bets today
          if daily_total + amount > MAX_DAILY_BETS then (false, msgDaily)
          else (true, "OK")

/-- `RiskManager.record_bet` (src/bot.py):
`self.daily_bets[today] = self.daily_bets.get(today, 0) + amount`. -/
def record_bet (daily_bets : Ledger) (today : String) (amount : ℚ) : Ledger :=
  Ledger.set daily_bets today (Ledger.get daily_bets today + amount)

/-! ### Specification-side view of `check_bet` (for the refinement claim C1)

Modelled from the spec: `check_bet` "evaluates exactly six rules in this
fixed order, returning the rejection reason of the first failing rule and
(True, OK) only when all pass". -/

/-- First-failing-rule evaluator over an ordered rule list, as the spec words it. -/
def firstFailing : List (Bool × String) → Bool × String
  | [] => (true, "OK")
  | (ok, msg) :: rest => if ok then firstFailing rest else (false, msg)

/-- The six rules of the spec, in the spec order, each paired with its
rejection reason. -/
def specRules (amount : ℚ) (market_id : String) (balance : Balance)
    (positions : List Position) (researched : Bool)
    (daily_bets : Ledger) (today : String) : List (Bool × String) :=
  [ (researched, msgResearch),
    (decide (amount ≤ MAX_SINGLE_BET), msgSingle),
    (decide (amount ≤ balance.available_usdc), msgBalance),
    (decide (balance.total_usdc * MIN_RESERVE_PCT ≤ balance.available_usdc - amount), msgReserve),
    (decide (positionSum positions market_id + amount ≤ balance.total_usdc * MAX_POSITION_PCT), msgPosition),
    (decide (Ledger.get daily_bets today + amount ≤ MAX_DAILY_BETS), msgDaily) ]

/-! ## Order builder (src/trading.py, class PolymarketTrader) -/

inductive Side where
  | BUY
  | SELL
deriving Repr, DecidableEq

/-- `Decimal(str(x)).quantize(Decimal(step), rounding=ROUND_DOWN)` with
`step = 1/s`: truncation toward zero at `s` subdivisions of a unit. -/
def quantizeDown (x : ℚ) (s : ℚ) : ℚ :=
  (if 0 ≤ x then (⌊x * s⌋ : ℚ) else (⌈x * s⌉ : ℚ)) / s

def MIN_SHARES : ℚ := 5

/-- The fields of the `OrderArgs` the code signs (fee rate, always 0, elided). -/
structure OrderArgs where
  token_id : String
  price : ℚ
  size : ℚ
  side : Side
deriving Repr, DecidableEq

/-- `PolymarketTrader.create_limit_order` (src/trading.py).  The second
component of the result is the final value of the local `amount` — the
realized notional the code reports when it auto-adjusts below-minimum
orders. -/
def create_limit_order (token_id : String) (side : Side) (price amount : ℚ) :
    OrderArgs × ℚ :=
  let shares := amount / price
  let adjusted :=
    if shares < MIN_SHARES then (MIN_SHARES * price, MIN_SHARES) else (amount, shares)
  let price_decimal := quantizeDown price 100
  let shares_decimal := quantizeDown adjusted.2 10000
  (⟨token_id, price_decimal, shares_decimal, side⟩, adjusted.1)

/-- One resting level of the order book (only its price is read). -/
structure BookLevel where
  price : ℚ
deriving Repr, DecidableEq

/-- The order book as returned by `get_orderbook`; a side the response lacks
(`hasattr` false or falsy) is the empty list. -/
structure OrderBook where
  bids : List BookLevel
  asks : List BookLevel
deriving Repr, DecidableEq

/-- `PolymarketTrader.create_market_order` (src/trading.py): resolve the
price from `book.asks[-1]` (BUY) or `book.bids[-1]` (SELL), raising when the
relevant side is empty, then delegate to `create_limit_order`. -/
def create_market_order (book : OrderBook) (token_id : String) (side : Side)
    (amount : ℚ) : Except String (OrderArgs × ℚ) :=
  match side with
  | Side.BUY =>
      match book.asks.getLast? with
      | some lvl => Except.ok (create_limit_order token_id side lvl.price amount)
      | none => Except.error "Cannot get ask price"
  | Side.SELL =>
      match book.bids.getLast? with
      | some lvl => Except.ok (create_limit_order token_id side lvl.price amount)
      | none => Except.error "Cannot get bid price"

/-! ## Research cache (src/research.py, class ResearchService)

Timestamps are rationals measured in hours (`datetime` values compared via
`timedelta(hours=...)`); the SQLite table keyed on `market_id` is a list of
rows with that key unique, read by first match (`fetchone`). -/

def CACHE_EXPIRY_HOURS : ℚ := 24

/-- One row of the `research` table. -/
structure ResearchRecord where
  market_id : String
  market_title : String
  research_time : ℚ
  summary : String
  estimated_probability : ℚ
  confidence : ℚ
deriving Repr, DecidableEq

abbrev ResearchDB := List ResearchRecord

/-- `ResearchService.get_research_result` (src/research.py): select the row
for `market_id`; absent rows and rows older than `CACHE_EXPIRY_HOURS` yield
`None`; nothing is deleted. -/
def get_research_result (db : ResearchDB) (now : ℚ) (market_id : String) :
    Option ResearchRecord :=
  match db.find? (fun r => r.market_id == market_id) with
  | none => none
  | some r =>
      if now - r.research_time > CACHE_EXPIRY_HOURS then none else some r

/-- The projection `list_all_research` returns per row (it selects
`market_id, market_title, research_time, estimated_probability, confidence`). -/
structure ResearchSummary where
  market_id : String
  market_title : String
  research_time : ℚ
  estimated_probability : ℚ
  confidence : ℚ
deriving Repr, DecidableEq

/-- `ResearchService.list_all_research` (src/research.py): every stored row,
with no expiry filter. -/
def list_all_research (db : ResearchDB) : List ResearchSummary :=
  db.map (fun r =>
    ⟨r.market_id, r.market_title, r.research_time,
     r.estimated_probability, r.confidence⟩)

/-! ## Decision loop (src/bot.py, SurvivalBot.run_cycle)

The reasoning oracle is abstracted as a function from the turn number
(1-based, as the code's `iteration` counter) to the response; a response is
its list of tool-use blocks plus its concatenated text. -/

structure OracleResponse where
  toolUses : List String
  text : String
deriving Repr, DecidableEq

def max_iterations : ℕ := 20

def maxIterationsSentinel : String := "Maximum iterations reached"

/-- The `while iteration < max_iterations` loop of `run_cycle`, as recursion
on the remaining turn budget.  Result: the returned report and the final
value of `iteration` (the number of oracle calls made). -/
def runCycleGo (oracle : ℕ → OracleResponse) : ℕ → ℕ → String × ℕ
  | 0, iteration => (maxIterationsSentinel, iteration)
  | fuel + 1, iteration =>
      let response := oracle (iteration + 1)
      if response.toolUses.isEmpty then (response.text, iteration + 1)
      else runCycleGo oracle fuel (iteration + 1)

/-- `SurvivalBot.run_cycle` (src/bot.py), abstracted over the oracle. -/
def run_cycle (oracle : ℕ → OracleResponse) : String × ℕ :=
  runCycleGo oracle max_iterations 0

/-! ## Tool dispatch (src/bot.py, SurvivalBot.execute_tool)

Each dispatch branch (the handler call plus its `json.dumps` wrapping) is
abstracted as a fallible computation `String → Except String String` from
the raw tool input to the JSON payload; `Except.error e` models the branch
raising an exception whose `str` is `e`.  The whole body runs inside
`try ... except Exception as e: return json.dumps(\x7b"error": str(e)\x7d)`. -/

structure ToolHandlers where
  get_markets_list : String → Except String String
  get_market_detail : String → Except String String
  get_research_result : String → Except String String
  research_market_and_save : String → Except String String
  get_balance : String → Except String String
  get_my_positions : String → Except String String
  place_bet : String → Except String String

/-- The mutable bot state `execute_tool` touches: `self.research_count`. -/
structure BotState where
  research_count : ℕ
deriving Repr, DecidableEq

/-- `json.dumps(\x7b"error": e\x7d)`. -/
def jsonError (e : String) : String :=
  "\x7b\"error\": \"" ++ e ++ "\"\x7d"

/-- The catch-all `except` boundary: a normal return passes through, a
raised exception becomes the error payload. -/
def tryDispatch : Except String String → String
  | Except.ok payload => payload
  | Except.error e => jsonError e

def researchLimitError : String :=
  jsonError "Research limit (5) reached this cycle"

/-- `SurvivalBot.execute_tool` (src/bot.py): dispatch on the tool name;
the research branch short-circuits at the per-cycle ceiling and increments
`research_count` only after its handler returns normally. -/
def execute_tool (h : ToolHandlers) (st : BotState) (tool_name tool_input : String) :
    String × BotState :=
  if tool_name = "get_markets_list" then (tryDispatch (h.get_markets_list tool_input), st)
  else if tool_name = "get_market_detail" then (tryDispatch (h.get_market_detail tool_input), st)
  else if tool_name = "get_research_result" then (tryDispatch (h.get_research_result tool_input), st)
  else if tool_name = "research_market_and_save" then
    if MAX_RESEARCH_PER_CYCLE ≤ st.research_count then (researchLimitError, st)
    else
      match h.research_market_and_save tool_input with
      | Except.ok payload => (payload, ⟨st.research_count + 1⟩)
      | Except.error e => (jsonError e, st)
  else if tool_name = "get_balance" then (tryDispatch (h.get_balance tool_input), st)
  else if tool_name = "get_my_positions" then (tryDispatch (h.get_my_positions tool_input), st)
  else if tool_name = "place_bet" then (tryDispatch (h.place_bet tool_input), st)
  else (jsonError ("Unknown tool: " ++ tool_name), st)

/-- The tool names `execute_tool` dispatches to a handler. -/
def knownTools : List String :=
  ["get_markets_list", "get_market_detail", "get_research_result",
   "research_market_and_save", "get_balance", "get_my_positions", "place_bet"]

/-- Folding `execute_tool` over a sequence of dispatches within one cycle. -/
def runTools (h : ToolHandlers) : BotState → List (String × String) → BotState
  | st, [] => st
  | st, (name, input) :: rest => runTools h (execute_tool h st name input).2 rest

/-! ## Bet execution (src/bot.py, SurvivalBot._execute_bet)

The external world the function consults is abstracted in `BetEnv`:
the account balance and positions, the research-cache lookup for the
market, the market-detail lookup, and the outcome of `self.trader.buy`
(`Except.error e` models a raised exception with message `e`). -/

structure Market where
  slug : String
deriving Repr, DecidableEq

structure BetResult where
  success : Bool
  message : String
deriving Repr, DecidableEq

structure BetEnv where
  dry_run : Bool
  balance : Balance
  positions : List Position
  research : Option ResearchRecord
  market : Option Market
  buyResult : Except String String

/-- The simulated balance used in dry-run mode (`available 100, total 100`). -/
def dryRunBalance : Balance := ⟨100, 100⟩

/-- `SurvivalBot._execute_bet` (src/bot.py).  Returns the decoded
`success`/`message` payload and the risk manager ledger after the call. -/
def execute_bet (env : BetEnv) (daily_bets : Ledger) (today : String)
    (market_id : String) (amount : ℚ) : BetResult × Ledger :=
  let balance := if env.dry_run then dryRunBalance else env.balance
  let positions := if env.dry_run then [] else env.positions
  let researched := env.research.isSome
  let checked := check_bet amount market_id balance positions researched daily_bets today
  if checked.1 = false then (⟨false, checked.2⟩, daily_bets)
  else if env.dry_run then (⟨true, "[DRY RUN] Bet would be placed"⟩, daily_bets)
  else
    match env.market with
    | none => (⟨false, "Market not found"⟩, daily_bets)
    | some market =>
        if market.slug = "" then (⟨false, "Market slug not found"⟩, daily_bets)
        else
          match env.buyResult with
          | Except.error e => (⟨false, "Trade failed: " ++ e⟩, daily_bets)
          | Except.ok _ =>
              (⟨true, "Bet placed successfully"⟩, record_bet daily_bets today amount)

/-! ## Theorems -/

/-- C10: `check_bet` imposes no positivity requirement on the bet amount:
with `researched = true`, balance `available = total = 100`, no positions and
an empty daily ledger, both a zero and a negative bet pass every rule and
return `(true, "OK")`. -/
theorem check_bet_allows_nonpositive :
    check_bet 0 "m" ⟨100, 100⟩ [] true [] "d" = (true, "OK") ∧
    check_bet (-5) "m" ⟨100, 100⟩ [] true [] "d" = (true, "OK") := by
  constructor <;>
    norm_num [check_bet, positionSum, Ledger.get, MAX_SINGLE_BET,
      MIN_RESERVE_PCT, MAX_POSITION_PCT, MAX_DAILY_BETS]

/-- C1: `check_bet` evaluates exactly the six rules of the spec in the spec
order, returning the rejection reason of the first failing rule and
`(true, "OK")` only when all pass; in particular any amount above
`MAX_SINGLE_BET` is rejected, and `researched = false` always yields the
research-required rejection. -/
theorem check_bet_first_failing (amount : ℚ) (market_id : String) (balance : Balance)
    (positions : List Position) (researched : Bool) (daily_bets : Ledger) (today : String) :
    check_bet amount market_id balance positions researched daily_bets today
      = firstFailing (specRules amount market_id balance positions researched daily_bets today) ∧
    (MAX_SINGLE_BET < amount →
      (check_bet amount market_id balance positions researched daily_bets today).1 = false) ∧
    (researched = false →
      check_bet amount market_id balance positions researched daily_bets today
        = (false, msgResearch)) := by
  refine ⟨?_, ?_, ?_⟩
  · cases researched with
    | false => simp [check_bet, firstFailing, specRules]
    | true =>
      simp only [check_bet, firstFailing, specRules]
      by_cases h1 : amount ≤ MAX_SINGLE_BET
      · by_cases h2 : amount ≤ balance.available_usdc
        · by_cases h3 : balance.total_usdc * MIN_RESERVE_PCT ≤ balance.available_usdc - amount
          · by_cases h4 : positionSum positions market_id + amount
                ≤ balance.total_usdc * MAX_POSITION_PCT
            · by_cases h5 : Ledger.get daily_bets today + amount ≤ MAX_DAILY_BETS
              · simp [h1, h2, h3, h4, h5, not_lt.mpr h1, not_lt.mpr h2,
                  not_lt.mpr h3, not_lt.mpr h4, not_lt.mpr h5]
              · simp [h1, h2, h3, h4, h5, not_lt.mpr h1, not_lt.mpr h2,
                  not_lt.mpr h3, not_lt.mpr h4, not_le.mp h5]
            · simp [h1, h2, h3, h4, not_lt.mpr h1, not_lt.mpr h2,
                not_lt.mpr h3, not_le.mp h4]
          · simp [h1, h2, h3, not_lt.mpr h1, not_lt.mpr h2, not_le.mp h3]
        · simp [h1, h2, not_lt.mpr h1, not_le.mp h2]
      · simp [h1, not_le.mp h1]
  · intro hgt
    cases researched with
    | false => simp [check_bet]
    | true => simp [check_bet, hgt]
  · intro hres
    subst hres
    simp [check_bet]

/-- Witness for `check_bet_first_failing`: at concrete inputs, an amount of
16 (above the 15 cap) is rejected, and an unresearched bet of 1 is rejected
with the research-required reason. -/
theorem check_bet_first_failing_witness :
    (check_bet 16 "m" ⟨100, 100⟩ [] true [] "d").1 = false ∧
    check_bet 1 "m" ⟨100, 100⟩ [] false [] "d" = (false, msgResearch) :=
  ⟨(check_bet_first_failing 16 "m" ⟨100, 100⟩ [] true [] "d").2.1 (by norm_num [MAX_SINGLE_BET]),
   (check_bet_first_failing 1 "m" ⟨100, 100⟩ [] false [] "d").2.2 rfl⟩

/-- After `Ledger.set l k v`, reading key `k` yields `v`. -/
theorem Ledger.get_set (l : Ledger) (k : String) (v : ℚ) :
    Ledger.get (Ledger.set l k v) k = v := by
  induction l with
  | nil => simp [Ledger.set, Ledger.get]
  | cons hd tl ih =>
    obtain ⟨k0, v0⟩ := hd
    by_cases h : k0 = k
    · simp [Ledger.set, h, Ledger.get]
    · simp [Ledger.set, h, Ledger.get, ih]

/-- `record_bet` adds `amount` to the ledger entry of `today`. -/
theorem record_bet_get (l : Ledger) (today : String) (amount : ℚ) :
    Ledger.get (record_bet l today amount) today = Ledger.get l today + amount := by
  simp [record_bet, Ledger.get_set]

/-- C9 counterexample: the claim fails as stated.  `check_bet` approves an
amount of 10 and then an amount of -1 (both researched, plenty of balance),
yet recording the second bet strictly decreases the ledger entry for the
day: approval by `check_bet` alone does not give monotonicity, because
`check_bet` accepts negative amounts. -/
theorem record_bet_monotone_counterexample :
    (check_bet 10 "m" ⟨100, 100⟩ [] true [] "d").1 = true ∧
    (check_bet (-1) "m" ⟨100, 100⟩ [] true (record_bet [] "d" 10) "d").1 = true ∧
    Ledger.get (record_bet (record_bet [] "d" 10) "d" (-1)) "d"
      < Ledger.get (record_bet [] "d" 10) "d" := by
  refine ⟨?_, ?_, ?_⟩ <;>
    norm_num [check_bet, positionSum, record_bet, Ledger.set, Ledger.get,
      MAX_SINGLE_BET, MIN_RESERVE_PCT, MAX_POSITION_PCT, MAX_DAILY_BETS]

/-- C9 (amended): within one day the ledger never decreases across
`record_bet` calls with nonnegative amounts; the nonnegativity hypothesis is
needed because `check_bet` approval alone admits negative amounts. -/
theorem record_bet_monotone (l : Ledger) (today : String) (amount : ℚ)
    (h : 0 ≤ amount) :
    Ledger.get l today ≤ Ledger.get (record_bet l today amount) today := by
  rw [record_bet_get]
  linarith

/-- Witness for `record_bet_monotone` at the concrete ledger entry
`("d", 10)` and amount 3. -/
theorem record_bet_monotone_witness :
    (0 : ℚ) ≤ 3 ∧
    Ledger.get [("d", 10)] "d" ≤ Ledger.get (record_bet [("d", 10)] "d" 3) "d" :=
  ⟨by norm_num, record_bet_monotone [("d", 10)] "d" 3 (by norm_num)⟩

/-- C2: in `_execute_bet`, the ledger is mutated only after the risk gate
approves and the order submission returns without raising: a risk rejection
returns `success = false` with the gate message and leaves the ledger
unchanged; a raising `trader.buy` leaves the ledger unchanged (and, outside
dry-run, yields `success = false`); conversely the only way the ledger
changes is the fully successful path, where it changes by `record_bet`. -/
theorem execute_bet_ledger_discipline (env : BetEnv) (daily_bets : Ledger)
    (today market_id : String) (amount : ℚ) :
    (∀ msg,
      check_bet amount market_id (if env.dry_run then dryRunBalance else env.balance)
          (if env.dry_run then [] else env.positions) env.research.isSome daily_bets today
        = (false, msg) →
      execute_bet env daily_bets today market_id amount = (⟨false, msg⟩, daily_bets)) ∧
    (∀ e, env.buyResult = Except.error e →
      (execute_bet env daily_bets today market_id amount).2 = daily_bets ∧
      (env.dry_run = false →
        (execute_bet env daily_bets today market_id amount).1.success = false)) ∧
    ((execute_bet env daily_bets today market_id amount).2 ≠ daily_bets →
      (check_bet amount market_id env.balance env.positions
          env.research.isSome daily_bets today).1 = true ∧
      env.dry_run = false ∧
      (∃ r, env.buyResult = Except.ok r) ∧
      (execute_bet env daily_bets today market_id amount).2
        = record_bet daily_bets today amount ∧
      (execute_bet env daily_bets today market_id amount).1.success = true) := by
  refine ⟨?_, ?_, ?_⟩
  · intro msg hmsg
    simp [execute_bet, hmsg]
  · intro e he
    cases hdr : env.dry_run with
    | true =>
      refine ⟨?_, ?_⟩
      · simp only [execute_bet, hdr]
        repeat' split
        all_goals simp_all
      · intro hfalse
        exact absurd hfalse (by simp)
    | false =>
      have key : (execute_bet env daily_bets today market_id amount).2 = daily_bets ∧
          (execute_bet env daily_bets today market_id amount).1.success = false := by
        cases hm : env.market with
        | none =>
          simp only [execute_bet, hdr, hm]
          repeat' split
          all_goals simp_all
        | some market =>
          by_cases hs : market.slug = ""
          · simp only [execute_bet, hdr, hm, hs]
            repeat' split
            all_goals simp_all
          · simp only [execute_bet, hdr, hm, he]
            repeat' split
            all_goals simp_all
      exact ⟨key.1, fun _ => key.2⟩
  · intro hne
    cases hdr : env.dry_run with
    | true =>
      exfalso
      apply hne
      simp only [execute_bet, hdr]
      repeat' split
      all_goals simp_all
    | false =>
      cases hm : env.market with
      | none =>
        exfalso
        apply hne
        simp only [execute_bet, hdr, hm]
        repeat' split
        all_goals simp_all
      | some market =>
        by_cases hs : market.slug = ""
        · exfalso
          apply hne
          simp only [execute_bet, hdr, hm, hs]
          repeat' split
          all_goals simp_all
        · cases hb : env.buyResult with
          | error e =>
            exfalso
            apply hne
            simp only [execute_bet, hdr, hm, hb]
            repeat' split
            all_goals simp_all
          | ok r =>
            by_cases hc : (check_bet amount market_id env.balance env.positions
                env.research.isSome daily_bets today).1 = false
            · exfalso
              apply hne
              simp [execute_bet, hdr, hm, hb, hc, hs]
            · have hc' : (check_bet amount market_id env.balance env.positions
                  env.research.isSome daily_bets today).1 = true := by
                cases h : (check_bet amount market_id env.balance env.positions
                    env.research.isSome daily_bets today).1
                · exact absurd h hc
                · rfl
              refine ⟨hc', rfl, ⟨r, rfl⟩, ?_, ?_⟩ <;>
                simp [execute_bet, hdr, hm, hb, hc', hs]

/-- Witness for `execute_bet_ledger_discipline`: with no cached research the
gate rejects and the ledger stays put; with research present but a raising
`trader.buy`, the ledger also stays put and the result is a failure. -/
theorem execute_bet_ledger_discipline_witness :
    (execute_bet ⟨false, ⟨100, 100⟩, [], none, some ⟨"s"⟩, Except.error "boom"⟩
        [] "d" "m" 5
      = (⟨false, msgResearch⟩, [])) ∧
    ((execute_bet ⟨false, ⟨100, 100⟩,
        [], some ⟨"m", "t", 0, "sum", 1/2, 7/10⟩, some ⟨"s"⟩, Except.error "boom"⟩
        [] "d" "m" 5).2 = ([] : Ledger)) := by
  constructor
  · exact (execute_bet_ledger_discipline
      ⟨false, ⟨100, 100⟩, [], none, some ⟨"s"⟩, Except.error "boom"⟩ [] "d" "m" 5).1
      msgResearch (by simp [check_bet])
  · exact ((execute_bet_ledger_discipline
      ⟨false, ⟨100, 100⟩, [], some ⟨"m", "t", 0, "sum", 1/2, 7/10⟩, some ⟨"s"⟩,
        Except.error "boom"⟩ [] "d" "m" 5).2.1 "boom" rfl).1

/-- C3: `create_limit_order` forces the size up to `MIN_SHARES` whenever the
naive `amount / price` conversion falls below it, recomputing the realized
notional as `MIN_SHARES × price`; otherwise the requested notional stands;
the order price is the input quantized down to 2 decimals, the size is the
(possibly adjusted) share count quantized down to 4 decimals, and the size
is always at least `MIN_SHARES`. -/
theorem create_limit_order_spec (token_id : String) (side : Side) (price amount : ℚ)
    (_hp : 0 < price) :
    (amount / price < MIN_SHARES →
      (create_limit_order token_id side price amount).1.size = MIN_SHARES ∧
      (create_limit_order token_id side price amount).2 = MIN_SHARES * price) ∧
    (MIN_SHARES ≤ amount / price →
      (create_limit_order token_id side price amount).1.size
        = quantizeDown (amount / price) 10000 ∧
      (create_limit_order token_id side price amount).2 = amount) ∧
    (create_limit_order token_id side price amount).1.price = quantizeDown price 100 ∧
    MIN_SHARES ≤ (create_limit_order token_id side price amount).1.size := by
  have hq5 : quantizeDown MIN_SHARES 10000 = MIN_SHARES := by
    have : (MIN_SHARES * 10000 : ℚ) = ((50000 : ℤ) : ℚ) := by norm_num [MIN_SHARES]
    simp [quantizeDown, this, MIN_SHARES]
    norm_num
  refine ⟨?_, ?_, ?_, ?_⟩
  · intro hlt
    simp [create_limit_order, hlt, hq5]
  · intro hge
    simp [create_limit_order, not_lt.mpr hge]
  · simp [create_limit_order]
  · by_cases hlt : amount / price < MIN_SHARES
    · simp [create_limit_order, hlt, hq5]
    · push_neg at hlt
      simp only [create_limit_order, not_lt.mpr hlt, if_false]
      have hpos : (0 : ℚ) ≤ amount / price :=
        le_trans (by norm_num [MIN_SHARES]) hlt
      have hfl : (50000 : ℤ) ≤ ⌊amount / price * 10000⌋ := by
        rw [Int.le_floor]
        push_cast
        have : (5 : ℚ) ≤ amount / price := by simpa [MIN_SHARES] using hlt
        linarith
      have hfl' : (50000 : ℚ) ≤ (⌊amount / price * 10000⌋ : ℚ) := by exact_mod_cast hfl
      simp only [quantizeDown, if_pos hpos]
      simp only [MIN_SHARES]
      linarith

/-- Witness for `create_limit_order_spec` at the spec example
`amount = 1, price = 0.50`: naive shares 2 < 5, so the order has size 5,
price 0.50, and realized notional 2.50. -/
theorem create_limit_order_spec_witness :
    (create_limit_order "t" Side.BUY (1/2) 1).1.size = MIN_SHARES ∧
    (create_limit_order "t" Side.BUY (1/2) 1).2 = MIN_SHARES * (1/2) ∧
    (create_limit_order "t" Side.BUY (1/2) 1).1.price = quantizeDown (1/2) 100 ∧
    MIN_SHARES ≤ (create_limit_order "t" Side.BUY (1/2) 1).1.size := by
  have h := create_limit_order_spec "t" Side.BUY (1/2) 1 (by norm_num)
  exact ⟨(h.1 (by norm_num [MIN_SHARES])).1, (h.1 (by norm_num [MIN_SHARES])).2,
    h.2.2.1, h.2.2.2⟩

/-- C4: `create_market_order` prices a BUY at the last entry of the asks
list and a SELL at the last entry of the bids list (delegating to
`create_limit_order` at exactly that price), and fails with an error when
the relevant book side is empty. -/
theorem create_market_order_last_level (book : OrderBook) (token_id : String)
    (amount : ℚ) :
    (∀ l lvl, book.asks = l ++ [lvl] →
      create_market_order book token_id Side.BUY amount
        = Except.ok (create_limit_order token_id Side.BUY lvl.price amount)) ∧
    (book.asks = [] →
      create_market_order book token_id Side.BUY amount
        = Except.error "Cannot get ask price") ∧
    (∀ l lvl, book.bids = l ++ [lvl] →
      create_market_order book token_id Side.SELL amount
        = Except.ok (create_limit_order token_id Side.SELL lvl.price amount)) ∧
    (book.bids = [] →
      create_market_order book token_id Side.SELL amount
        = Except.error "Cannot get bid price") := by
  refine ⟨?_, ?_, ?_, ?_⟩
  · intro l lvl hl
    simp [create_market_order, hl, List.getLast?_concat]
  · intro hl
    simp [create_market_order, hl]
  · intro l lvl hl
    simp [create_market_order, hl, List.getLast?_concat]
  · intro hl
    simp [create_market_order, hl]

/-- Witness for `create_market_order_last_level` on a concrete two-level
book: the BUY price comes from the last ask, and an empty-ask book errors. -/
theorem create_market_order_last_level_witness :
    create_market_order ⟨[⟨3/10⟩], [⟨2/10⟩, ⟨7/10⟩]⟩ "t" Side.BUY 10
      = Except.ok (create_limit_order "t" Side.BUY (7/10) 10) ∧
    create_market_order ⟨[⟨3/10⟩], []⟩ "t" Side.BUY 10
      = Except.error "Cannot get ask price" := by
  constructor
  · exact (create_market_order_last_level ⟨[⟨3/10⟩], [⟨2/10⟩, ⟨7/10⟩]⟩ "t" 10).1
      [⟨2/10⟩] ⟨7/10⟩ rfl
  · exact (create_market_order_last_level ⟨[⟨3/10⟩], []⟩ "t" 10).2.1 rfl

/-- With an oracle that returns a tool call on every turn, the loop spends
its whole remaining budget and ends at the ceiling sentinel. -/
theorem runCycleGo_all_tools (oracle : ℕ → OracleResponse)
    (h : ∀ n, (oracle n).toolUses ≠ []) :
    ∀ fuel iteration, runCycleGo oracle fuel iteration
      = (maxIterationsSentinel, iteration + fuel) := by
  intro fuel
  induction fuel with
  | zero => intro it; simp [runCycleGo]
  | succ n ih =>
    intro it
    cases hto : (oracle (it + 1)).toolUses with
    | nil => exact absurd hto (h (it + 1))
    | cons a as =>
      rw [show it + (n + 1) = (it + 1) + n by omega]
      simp [runCycleGo, hto, ih]

/-- If every turn strictly before turn `k` carries a tool call and turn `k`
(within the remaining budget) carries none, the loop returns turn `k`'s
text after exactly `k` oracle calls. -/
theorem runCycleGo_first_empty (oracle : ℕ → OracleResponse) :
    ∀ fuel iteration k, iteration < k → k ≤ iteration + fuel →
      (∀ i, iteration < i → i < k → (oracle i).toolUses ≠ []) →
      (oracle k).toolUses = [] →
      runCycleGo oracle fuel iteration = ((oracle k).text, k) := by
  intro fuel
  induction fuel with
  | zero =>
    intro iteration k h1 h2 _ _
    omega
  | succ n ih =>
    intro iteration k h1 h2 hbefore hk
    by_cases hek : k = iteration + 1
    · subst hek
      simp [runCycleGo, hk]
    · have hlt : iteration + 1 < k := by omega
      have hne : (oracle (iteration + 1)).toolUses ≠ [] :=
        hbefore (iteration + 1) (by omega) hlt
      cases hto : (oracle (iteration + 1)).toolUses with
      | nil => exact absurd hto hne
      | cons a as =>
        simp only [runCycleGo, hto, List.isEmpty_cons, Bool.false_eq_true,
          if_false]
        exact ih (iteration + 1) k hlt (by omega)
          (fun i hi1 hi2 => hbefore i (by omega) hi2) hk

/-- C5: the decision loop terminates for every oracle behaviour: an oracle
that returns a tool call on every turn drives exactly 20 turns and then the
loop returns the ceiling sentinel, while at whichever turn `k ≤ 20` the
oracle first responds with zero tool-use blocks, the loop returns that
response's text after exactly `k` turns. -/
theorem run_cycle_ceiling (oracle : ℕ → OracleResponse) :
    ((∀ n, (oracle n).toolUses ≠ []) →
      run_cycle oracle = (maxIterationsSentinel, 20)) ∧
    (∀ k, 1 ≤ k → k ≤ 20 →
      (∀ i, 1 ≤ i → i < k → (oracle i).toolUses ≠ []) →
      (oracle k).toolUses = [] →
      run_cycle oracle = ((oracle k).text, k)) := by
  constructor
  · intro h
    have := runCycleGo_all_tools oracle h max_iterations 0
    simpa [run_cycle, max_iterations] using this
  · intro k hk1 hk20 hbefore hk
    have hmax : max_iterations = 20 := rfl
    have := runCycleGo_first_empty oracle max_iterations 0 k (by omega)
      (by rw [hmax]; omega)
      (fun i hi1 hi2 => hbefore i (by omega) hi2) hk
    simpa [run_cycle] using this

/-- Witness for `run_cycle_ceiling`: an always-tool oracle yields the
sentinel after 20 turns; an oracle with a tool call on turn 1 and a
terminal response on turn 2 yields that text after two turns. -/
theorem run_cycle_ceiling_witness :
    run_cycle (fun _ => ⟨["tool"], "x"⟩) = (maxIterationsSentinel, 20) ∧
    run_cycle (fun n => if n = 1 then ⟨["tool"], "a"⟩ else ⟨[], "done"⟩)
      = ("done", 2) := by
  constructor
  · exact (run_cycle_ceiling (fun _ => ⟨["tool"], "x"⟩)).1 (fun _ => by simp)
  · have h := (run_cycle_ceiling
        (fun n => if n = 1 then ⟨["tool"], "a"⟩ else ⟨[], "done"⟩)).2
      2 (by norm_num) (by norm_num)
      (fun i hi1 hi2 => by
        have hi : i = 1 := by omega
        subst hi
        simp)
      (by simp)
    simpa using h

/-- C6: `get_research_result` returns `none` both when no row exists for
the market and when the stored row is older than `CACHE_EXPIRY_HOURS`; an
expired row is not removed by the read and still appears in
`list_all_research`; and repeated reads within the TTL window against the
same store return the identical record. -/
theorem get_research_result_ttl (db : ResearchDB) (market_id : String) :
    (db.find? (fun r => r.market_id == market_id) = none →
      ∀ now, get_research_result db now market_id = none) ∧
    (∀ r, db.find? (fun r => r.market_id == market_id) = some r →
      ∀ now, CACHE_EXPIRY_HOURS < now - r.research_time →
        get_research_result db now market_id = none ∧
        (⟨r.market_id, r.market_title, r.research_time,
          r.estimated_probability, r.confidence⟩ : ResearchSummary)
            ∈ list_all_research db) ∧
    (∀ r t1 t2, db.find? (fun r => r.market_id == market_id) = some r →
      t1 - r.research_time ≤ CACHE_EXPIRY_HOURS →
      t2 - r.research_time ≤ CACHE_EXPIRY_HOURS →
      get_research_result db t1 market_id = get_research_result db t2 market_id ∧
      get_research_result db t1 market_id = some r) := by
  refine ⟨?_, ?_, ?_⟩
  · intro hnone now
    simp [get_research_result, hnone]
  · intro r hr now hexp
    constructor
    · simp [get_research_result, hr, hexp]
    · simp only [list_all_research]
      exact List.mem_map.mpr ⟨r, List.mem_of_find?_eq_some hr, rfl⟩
  · intro r t1 t2 hr h1 h2
    constructor <;>
      simp [get_research_result, hr, not_lt.mpr h1, not_lt.mpr h2]

/-- Witness for `get_research_result_ttl`: a record researched at time 0,
read at time 25 (25h later), is reported absent, yet still listed by
`list_all_research`. -/
theorem get_research_result_ttl_witness :
    get_research_result [⟨"m", "t", 0, "s", 1/2, 7/10⟩] 25 "m" = none ∧
    (⟨"m", "t", 0, 1/2, 7/10⟩ : ResearchSummary)
      ∈ list_all_research [⟨"m", "t", 0, "s", 1/2, 7/10⟩] :=
  (get_research_result_ttl [⟨"m", "t", 0, "s", 1/2, 7/10⟩] "m").2.1
    ⟨"m", "t", 0, "s", 1/2, 7/10⟩ (by simp) 25 (by norm_num [CACHE_EXPIRY_HOURS])

/-- C7: `execute_tool` never surfaces an exception: it is a total function
into result strings; an unknown tool name yields the unknown-tool error
payload, and whenever a dispatched handler raises `e` the returned string is
exactly the JSON error payload for `e`. -/
theorem execute_tool_error_handling (h : ToolHandlers) (st : BotState)
    (tool_input : String) :
    (∀ tool_name, tool_name ∉ knownTools →
      execute_tool h st tool_name tool_input
        = (jsonError ("Unknown tool: " ++ tool_name), st)) ∧
    (∀ e, h.get_markets_list tool_input = Except.error e →
      (execute_tool h st "get_markets_list" tool_input).1 = jsonError e) ∧
    (∀ e, h.get_market_detail tool_input = Except.error e →
      (execute_tool h st "get_market_detail" tool_input).1 = jsonError e) ∧
    (∀ e, h.get_research_result tool_input = Except.error e →
      (execute_tool h st "get_research_result" tool_input).1 = jsonError e) ∧
    (∀ e, st.research_count < MAX_RESEARCH_PER_CYCLE →
      h.research_market_and_save tool_input = Except.error e →
      (execute_tool h st "research_market_and_save" tool_input).1 = jsonError e) ∧
    (∀ e, h.get_balance tool_input = Except.error e →
      (execute_tool h st "get_balance" tool_input).1 = jsonError e) ∧
    (∀ e, h.get_my_positions tool_input = Except.error e →
      (execute_tool h st "get_my_positions" tool_input).1 = jsonError e) ∧
    (∀ e, h.place_bet tool_input = Except.error e →
      (execute_tool h st "place_bet" tool_input).1 = jsonError e) := by
  refine ⟨?_, ?_, ?_, ?_, ?_, ?_, ?_, ?_⟩
  · intro tool_name hn
    simp only [knownTools, List.mem_cons, List.not_mem_nil, or_false] at hn
    push_neg at hn
    obtain ⟨h1, h2, h3, h4, h5, h6, h7⟩ := hn
    simp [execute_tool, h1, h2, h3, h4, h5, h6, h7]
  · intro e he
    simp [execute_tool, tryDispatch, he]
  · intro e he
    simp [execute_tool, tryDispatch, he]
  · intro e he
    simp [execute_tool, tryDispatch, he]
  · intro e hlt he
    simp [execute_tool, Nat.not_le.mpr hlt, he]
  · intro e he
    simp [execute_tool, tryDispatch, he]
  · intro e he
    simp [execute_tool, tryDispatch, he]
  · intro e he
    simp [execute_tool, tryDispatch, he]

/-- A handler set whose every branch raises with message "boom". -/
def errHandlers : ToolHandlers :=
  ⟨fun _ => Except.error "boom", fun _ => Except.error "boom",
   fun _ => Except.error "boom", fun _ => Except.error "boom",
   fun _ => Except.error "boom", fun _ => Except.error "boom",
   fun _ => Except.error "boom"⟩

/-- Witness for `execute_tool_error_handling`: an unknown tool name yields
the unknown-tool payload, and a raising `get_balance` handler yields the
error payload for its message. -/
theorem execute_tool_error_handling_witness :
    execute_tool errHandlers ⟨0⟩ "bogus" "i"
      = (jsonError ("Unknown tool: " ++ "bogus"), ⟨0⟩) ∧
    (execute_tool errHandlers ⟨0⟩ "get_balance" "i").1 = jsonError "boom" :=
  ⟨(execute_tool_error_handling errHandlers ⟨0⟩ "i").1 "bogus" (by simp [knownTools]),
   (execute_tool_error_handling errHandlers ⟨0⟩ "i").2.2.2.2.2.1 "boom" rfl⟩

/-- `execute_tool` either leaves `research_count` unchanged or — only on the
research branch below the ceiling — increments it by one. -/
theorem execute_tool_research_count (h : ToolHandlers) (st : BotState)
    (tool_name tool_input : String) :
    (execute_tool h st tool_name tool_input).2 = st ∨
    ((execute_tool h st tool_name tool_input).2.research_count
        = st.research_count + 1 ∧
      st.research_count < MAX_RESEARCH_PER_CYCLE) := by
  simp only [execute_tool]
  repeat' split
  all_goals simp_all

/-- C8: once `research_count` has reached the per-cycle ceiling of 5, every
further dispatch of the research tool returns the limit error payload
without touching the handler or the counter (the result is the same for
every handler set), and folding any dispatch sequence keeps the counter at
or below the ceiling. -/
theorem research_limit_gate (h : ToolHandlers) (st : BotState) (tool_input : String)
    (tools : List (String × String)) :
    (MAX_RESEARCH_PER_CYCLE ≤ st.research_count →
      execute_tool h st "research_market_and_save" tool_input
        = (researchLimitError, st)) ∧
    (∀ st2 : BotState, st2.research_count ≤ MAX_RESEARCH_PER_CYCLE →
      (runTools h st2 tools).research_count ≤ MAX_RESEARCH_PER_CYCLE) := by
  constructor
  · intro hge
    simp [execute_tool, hge]
  · induction tools with
    | nil =>
      intro st2 hle
      simpa [runTools] using hle
    | cons p rest ih =>
      intro st2 hle
      obtain ⟨name, input⟩ := p
      simp only [runTools]
      apply ih
      rcases execute_tool_research_count h st2 name input with heq | ⟨hinc, hlt⟩
      · rw [heq]; exact hle
      · rw [hinc]
        simp only [MAX_RESEARCH_PER_CYCLE] at hlt ⊢
        omega

/-- Witness for `research_limit_gate`: at a counter of 5 the research
dispatch short-circuits even though every handler raises, and a one-step
dispatch sequence keeps the counter at or below 5. -/
theorem research_limit_gate_witness :
    execute_tool errHandlers ⟨5⟩ "research_market_and_save" "i"
      = (researchLimitError, ⟨5⟩) ∧
    (runTools errHandlers ⟨0⟩ [("research_market_and_save", "i")]).research_count
      ≤ MAX_RESEARCH_PER_CYCLE :=
  ⟨(research_limit_gate errHandlers ⟨5⟩ "i" []).1 (by norm_num [MAX_RESEARCH_PER_CYCLE]),
   (research_limit_gate errHandlers ⟨5⟩ "i"
      [("research_market_and_save", "i")]).2 ⟨0⟩ (by norm_num [MAX_RESEARCH_PER_CYCLE])⟩

end PolySurvivor
